import Mathlib

/- Shallow embedding of the SimpleServer lifecycle controller from
   0x-jerry/vscode-simple-server.

   The repository contains three revisions of the controller:
   - `src/src/SimpleServer.ts` (namespace `SrcTs` below): `getStartCommand`
     returns a plain command string, `resolveUrl` always returns a string,
     `_detectServer` uses a hard-coded 15 s timeout and returns `false` on
     timeout, and `start()` assigns the poll result to `serverStarted`.
   - the first revision in `src/unnamed/part_000` (lines 121-322, the one
     carrying a logger; `Part000` with the `A`-suffixed operations): its
     `_startTask` resets `currentUrl`, `_detectServer` uses
     `checkTimeout ?? 10000` and returns `true` on timeout, and `start()`
     sets `serverStarted = true` unconditionally after `_startTask`.
   - the second revision in `src/unnamed/part_000` (lines 369-548; the
     `B`-suffixed operations): as the first, except `_startTask` does not
     reset `currentUrl`.

   State fields mirror the class fields (`editorChangeListener`,
   `taskHandler`, `currentUrl`, `serverStarted`, `statusBar`, plus the
   length of `_disposables` as `topLevelListeners`).  Collaborators that
   the controller only calls (terminal list, tab groups, the command
   provider, the URL resolver, `fetch`, the clock) are an explicit
   environment, and externally visible calls are recorded as `Effect`s in
   program order. -/

inductive StatusBarState
  | started
  | spinning
  | stopped
deriving DecidableEq

inductive SessionState
  | stopped
  | spinning
  | started
deriving DecidableEq

structure Terminal where
  name : String
  exitStatus : Option Int
deriving DecidableEq

inductive TaskHandler
  | reused (terminalName : String)
  | execution
deriving DecidableEq

inductive Effect
  | invokeCommandProvider
  | executeTask
  | openPreview (url : String) (beside : Bool) (preserveFocus : Bool)
  | resolveRootUrl
  | probe (k : Nat)
  | render (st : StatusBarState)
deriving DecidableEq

/-- Controller state: one field per mutable field of the `SimpleServer`
class; `topLevelListeners` is the length of `_disposables`. -/
structure State where
  topLevelListeners : Nat
  editorChangeListener : Bool
  taskHandler : Option TaskHandler
  currentUrl : Option String
  serverStarted : Option Bool
  statusBar : Option StatusBarState
deriving DecidableEq

/-- The spec's collapsed `SessionState`: `Stopped` when the editor
listener is absent, otherwise `Started`/`Spinning` according to
`serverStarted`. -/
def sessionState (s : State) : SessionState :=
  if s.editorChangeListener then
    if s.serverStarted = some true then SessionState.started else SessionState.spinning
  else SessionState.stopped

/-- Model of `this.statusBar?.started() / .spinning() / .stopped()`:
when a status bar exists, set its state and render it. -/
def renderStatusBar (s : State) (st : StatusBarState) : State × List Effect :=
  match s.statusBar with
  | none => (s, [])
  | some _ => ({ s with statusBar := some st }, [Effect.render st])

/-- Model of the launch branch of `_startTask`: ask the command provider
for the command, build the task and execute it; the resulting handle's
dispose terminates the execution. -/
def launchNewTask (s : State) : State × List Effect :=
  ({ s with taskHandler := some TaskHandler.execution },
   [Effect.invokeCommandProvider, Effect.executeTask])

/-- Bookkeeping for the probe trace: record that probe `k` was issued
before the rest of the loop ran. -/
def consProbe (k : Nat) : Bool × Nat × Nat × List Effect → Bool × Nat × Nat × List Effect
  | (res, fin, cnt, es) => (res, fin, cnt, Effect.probe k :: es)

/-- Model of the `while (now < maxTime)` loop of `_detectServer`, with an
explicit clock: a probe issued at time `now` (attempt index `k`) takes
`probeDur k` and succeeds iff `probeOk k`; on failure the loop sleeps
500 ms and re-reads the clock.  `timedOutResult` is the value returned
when the deadline is passed (`false` in `src/src/SimpleServer.ts`,
`true` in both `part_000` revisions).  Returns (result, final clock
value, number of probes attempted, probe trace). -/
def detectLoop (probeOk : Nat → Bool) (probeDur : Nat → Nat) (timedOutResult : Bool)
    (maxTime now k : Nat) : Bool × Nat × Nat × List Effect :=
  if _h : now < maxTime then
    if probeOk k then
      (true, now + probeDur k, k + 1, [Effect.probe k])
    else
      consProbe k (detectLoop probeOk probeDur timedOutResult maxTime (now + probeDur k + 500) (k + 1))
  else
    (timedOutResult, now, k, [])
termination_by maxTime - now
decreasing_by omega

/-- Render effects, for isolating status-bar updates in a trace. -/
def isRender : Effect → Bool
  | Effect.render _ => true
  | _ => false

namespace SrcTs

/-- Environment of `src/src/SimpleServer.ts`: configuration plus the
collaborators the controller reads.  `resolveUrl` of this revision always
returns a string (`rootUrl` with no argument, `resolveFor uri`
otherwise); `inWorkspace` models `workspace.getWorkspaceFolder(uri)`
being non-null. -/
structure Env where
  taskName : String
  terminals : List Terminal
  tabGroups : List (List String)
  rootUrl : String
  resolveFor : String → String
  activeEditor : Option String
  inWorkspace : String → Bool
  probeOk : Nat → Bool
  probeDur : Nat → Nat
  startTime : Nat

/-- Getter `isStarted`: `!!this.editorChangeListener`. -/
def isStarted (s : State) : Bool :=
  s.editorChangeListener

/-- Whether some tab group contains a tab labelled 'Simple Browser'. -/
def hasSimpleBrowserOpened (env : Env) : Bool :=
  env.tabGroups.any (fun group => group.any (fun t => t == "Simple Browser"))

/-- Model of `_openUrl`. -/
def openUrl (env : Env) (s : State) (url : String) : State × List Effect :=
  if s.currentUrl = some url ∧ hasSimpleBrowserOpened env = true then
    (s, [])
  else
    let s2 := if s.serverStarted = some true then { s with currentUrl := some url } else s
    (s2, [Effect.openPreview url true true])

/-- Model of `_startTask`: reuse the first terminal whose name matches and
whose `exitStatus` is null, otherwise launch a new task. -/
def startTask (env : Env) (s : State) : State × List Effect :=
  match env.terminals.find? (fun t => t.name == env.taskName) with
  | some t =>
    if t.exitStatus = none then
      ({ s with taskHandler := some (TaskHandler.reused t.name) }, [])
    else
      launchNewTask s
  | none => launchNewTask s

/-- Model of `_navigateCurrentPage`: skip when there is no active editor
or the document is outside every workspace folder, otherwise resolve the
document's URL and open it. -/
def navigateCurrentPage (env : Env) (s : State) : State × List Effect :=
  match env.activeEditor with
  | none => (s, [])
  | some uri =>
    if env.inWorkspace uri then openUrl env s (env.resolveFor uri)
    else (s, [])

/-- Model of `_detectServer`: 15 s hard-coded deadline, returns `false`
on timeout. -/
def detectServer (env : Env) : Bool × Nat × Nat × List Effect :=
  detectLoop env.probeOk env.probeDur false (env.startTime + 15 * 1000) env.startTime 0

/-- The part of `start()` that executes synchronously before its first
suspension point (`await this._startTask()`): the `isStarted` entry
guard, `serverStarted = false`, `statusBar?.spinning()`, and the
subscription of the editor-change listener.  The first component tells
whether the guard was passed. -/
def startPre (s : State) : Bool × State × List Effect :=
  if s.editorChangeListener then (false, s, [])
  else
    let s1 : State := { s with serverStarted := some false }
    let r := renderStatusBar s1 StatusBarState.spinning
    (true, { r.1 with editorChangeListener := true }, r.2)

/-- The remainder of `start()` after the first suspension point: task
acquisition, root-URL resolution, the readiness poll (whose result is
assigned to `serverStarted` in this revision), one navigation attempt,
and `statusBar?.started()`. -/
def startRest (env : Env) (s : State) : State × List Effect :=
  let t := startTask env s
  let d := detectServer env
  let s3 : State := { t.1 with serverStarted := some d.1 }
  let n := navigateCurrentPage env s3
  let r := renderStatusBar n.1 StatusBarState.started
  (r.1, t.2 ++ Effect.resolveRootUrl :: d.2.2.2 ++ n.2 ++ r.2)

/-- Model of `start()` run to completion. -/
def start (env : Env) (s : State) : State × List Effect :=
  let p := startPre s
  if p.1 then
    let r := startRest env p.2.1
    (r.1, p.2.2 ++ r.2)
  else (p.2.1, p.2.2)

/-- Model of `stop()`. -/
def stop (s : State) : State × List Effect :=
  let s1 : State := { s with editorChangeListener := false }
  let s2 : State := { s1 with taskHandler := none }
  let s3 : State := { s2 with currentUrl := none, serverStarted := none }
  renderStatusBar s3 StatusBarState.stopped

/-- The state after `stop()`. -/
def stopState (s : State) : State :=
  (stop s).1

/-- Model of `toggle()`. -/
def toggle (env : Env) (s : State) : State × List Effect :=
  if isStarted s then stop s else start env s

/-- Model of `dispose()`: `stop()`, dispose the status bar, dispose every
registered top-level subscription. -/
def dispose (s : State) : State × List Effect :=
  let r := stop s
  ({ r.1 with statusBar := none, topLevelListeners := 0 }, r.2)

/-- The `tasks.onDidEndTask` listener registered in the constructor. -/
def onDidEndTask (env : Env) (endedTaskName : String) (s : State) : State × List Effect :=
  if endedTaskName = env.taskName then stop s else (s, [])

/-- The `window.onDidCloseTerminal` listener registered in the
constructor. -/
def onDidCloseTerminal (env : Env) (closedName : String) (s : State) : State × List Effect :=
  if closedName = env.taskName then stop s else (s, [])

/-- Model of the constructor of this revision: register the two
task-end/terminal-close listeners, then, when `autoStart` is set, run the
synchronous part of `start()` (up to its first `await`), then assign
`statusBar` (whose construction renders the `stopped` appearance), and
only afterwards run the suspended remainder of `start()`. -/
def construct (env : Env) (autoStart hasStatusBarConfig : Bool) : State × List Effect :=
  let s0 : State :=
    { topLevelListeners := 2, editorChangeListener := false, taskHandler := none,
      currentUrl := none, serverStarted := none, statusBar := none }
  if autoStart then
    let p := startPre s0
    let withBar :=
      if hasStatusBarConfig then
        (({ p.2.1 with statusBar := some StatusBarState.stopped } : State),
         [Effect.render StatusBarState.stopped])
      else (p.2.1, ([] : List Effect))
    if p.1 then
      let r := startRest env withBar.1
      (r.1, p.2.2 ++ withBar.2 ++ r.2)
    else (withBar.1, p.2.2 ++ withBar.2)
  else
    let withBar :=
      if hasStatusBarConfig then
        (({ s0 with statusBar := some StatusBarState.stopped } : State),
         [Effect.render StatusBarState.stopped])
      else (s0, ([] : List Effect))
    (withBar.1, withBar.2)

end SrcTs

namespace Part000

/-- Environment of the two `part_000` revisions: `resolveUrl` may return
no URL, and the poll deadline is `checkTimeout ?? 10000`. -/
structure Env where
  taskName : String
  terminals : List Terminal
  tabGroups : List (List String)
  rootUrl : Option String
  resolveFor : String → Option String
  activeEditor : Option String
  probeOk : Nat → Bool
  probeDur : Nat → Nat
  startTime : Nat
  checkTimeout : Option Nat

/-- Getter `isStarted`: `!!this.editorChangeListener`. -/
def isStarted (s : State) : Bool :=
  s.editorChangeListener

/-- Whether some tab group contains a tab labelled 'Simple Browser'. -/
def hasSimpleBrowserOpened (env : Env) : Bool :=
  env.tabGroups.any (fun group => group.any (fun t => t == "Simple Browser"))

/-- Model of `_openUrl` (both revisions; the logger revision additionally
swallows preview-open failures, which the effect trace does not model as
failures cannot occur here). -/
def openUrl (env : Env) (s : State) (url : String) : State × List Effect :=
  if s.currentUrl = some url ∧ hasSimpleBrowserOpened env = true then
    (s, [])
  else
    let s2 := if s.serverStarted = some true then { s with currentUrl := some url } else s
    (s2, [Effect.openPreview url true true])

/-- Model of `_startTask` of the logger revision (part_000 lines
198-233): it first resets `currentUrl`, then reuses the first matching
non-exited terminal or launches a new task. -/
def startTaskA (env : Env) (s : State) : State × List Effect :=
  let s1 : State := { s with currentUrl := none }
  match env.terminals.find? (fun t => t.name == env.taskName) with
  | some t =>
    if t.exitStatus = none then
      ({ s1 with taskHandler := some (TaskHandler.reused t.name) }, [])
    else
      launchNewTask s1
  | none => launchNewTask s1

/-- Model of `_startTask` of the second revision (part_000 lines
434-462): as `startTaskA` but without the `currentUrl` reset. -/
def startTaskB (env : Env) (s : State) : State × List Effect :=
  match env.terminals.find? (fun t => t.name == env.taskName) with
  | some t =>
    if t.exitStatus = none then
      ({ s with taskHandler := some (TaskHandler.reused t.name) }, [])
    else
      launchNewTask s
  | none => launchNewTask s

/-- Model of `_navigateCurrentPage` (both revisions): skip when there is
no active editor or the resolver returns no URL. -/
def navigateCurrentPage (env : Env) (s : State) : State × List Effect :=
  match env.activeEditor with
  | none => (s, [])
  | some uri =>
    match env.resolveFor uri with
    | some url => openUrl env s url
    | none => (s, [])

/-- Model of `_detectServer` (both revisions): deadline
`checkTimeout ?? 10000`, returns `true` on timeout. -/
def detectServer (env : Env) : Bool × Nat × Nat × List Effect :=
  detectLoop env.probeOk env.probeDur true
    (env.startTime + env.checkTimeout.getD 10000) env.startTime 0

/-- The phase of the logger revision's `start()` up to and including the
unconditional `this.serverStarted = true` that directly follows
`await this._startTask()` — everything before the root URL is resolved
and before any readiness probe.  The first component tells whether the
entry guard was passed. -/
def startPreA (env : Env) (s : State) : Bool × State × List Effect :=
  if s.editorChangeListener then (false, s, [])
  else
    let s1 : State := { s with serverStarted := some false }
    let r := renderStatusBar s1 StatusBarState.spinning
    let s2 : State := { r.1 with editorChangeListener := true }
    let t := startTaskA env s2
    (true, { t.1 with serverStarted := some true }, r.2 ++ t.2)

/-- Same phase for the second revision (its `_startTask` differs). -/
def startPreB (env : Env) (s : State) : Bool × State × List Effect :=
  if s.editorChangeListener then (false, s, [])
  else
    let s1 : State := { s with serverStarted := some false }
    let r := renderStatusBar s1 StatusBarState.spinning
    let s2 : State := { r.1 with editorChangeListener := true }
    let t := startTaskB env s2
    (true, { t.1 with serverStarted := some true }, r.2 ++ t.2)

/-- The remainder of `start()` (both revisions): resolve the root URL,
run the readiness poll when a URL was resolved (its result is discarded),
one navigation attempt, `statusBar?.started()`. -/
def startPost (env : Env) (s : State) : State × List Effect :=
  let eDetect : List Effect :=
    match env.rootUrl with
    | some _ => (detectServer env).2.2.2
    | none => []
  let n := navigateCurrentPage env s
  let r := renderStatusBar n.1 StatusBarState.started
  (r.1, Effect.resolveRootUrl :: eDetect ++ n.2 ++ r.2)

/-- Model of the logger revision's `start()` run to completion. -/
def startA (env : Env) (s : State) : State × List Effect :=
  let p := startPreA env s
  if p.1 then
    let r := startPost env p.2.1
    (r.1, p.2.2 ++ r.2)
  else (p.2.1, p.2.2)

/-- Model of the second revision's `start()` run to completion. -/
def startB (env : Env) (s : State) : State × List Effect :=
  let p := startPreB env s
  if p.1 then
    let r := startPost env p.2.1
    (r.1, p.2.2 ++ r.2)
  else (p.2.1, p.2.2)

/-- Model of `stop()` (identical in both revisions). -/
def stop (s : State) : State × List Effect :=
  let s1 : State := { s with editorChangeListener := false }
  let s2 : State := { s1 with taskHandler := none }
  let s3 : State := { s2 with currentUrl := none, serverStarted := none }
  renderStatusBar s3 StatusBarState.stopped

/-- The state after `stop()`. -/
def stopState (s : State) : State :=
  (stop s).1

/-- Model of `toggle()` (here on the logger revision's `start`). -/
def toggle (env : Env) (s : State) : State × List Effect :=
  if isStarted s then stop s else startA env s

/-- Model of `dispose()`. -/
def dispose (s : State) : State × List Effect :=
  let r := stop s
  ({ r.1 with statusBar := none, topLevelListeners := 0 }, r.2)

/-- The `tasks.onDidEndTask` listener registered in the constructor. -/
def onDidEndTask (env : Env) (endedTaskName : String) (s : State) : State × List Effect :=
  if endedTaskName = env.taskName then stop s else (s, [])

/-- The `window.onDidCloseTerminal` listener registered in the
constructor. -/
def onDidCloseTerminal (env : Env) (closedName : String) (s : State) : State × List Effect :=
  if closedName = env.taskName then stop s else (s, [])

/-- Model of the `part_000` constructors: assign `statusBar` first, then
register the two listeners, then auto-start when requested.  (Unlike the
`SrcTs` revision, `statusBar` is already assigned when `start()` runs, so
the async interleaving of `start()` with the constructor is irrelevant to
the final state and `startA` is run to completion here.) -/
def construct (env : Env) (autoStart hasStatusBarConfig : Bool) : State × List Effect :=
  let s0 : State :=
    { topLevelListeners := 0, editorChangeListener := false, taskHandler := none,
      currentUrl := none, serverStarted := none, statusBar := none }
  let withBar :=
    if hasStatusBarConfig then
      (({ s0 with statusBar := some StatusBarState.stopped } : State),
       [Effect.render StatusBarState.stopped])
    else (s0, ([] : List Effect))
  let s1 : State := { withBar.1 with topLevelListeners := 2 }
  if autoStart then
    let r := startA env s1
    (r.1, withBar.2 ++ r.2)
  else (s1, withBar.2)

end Part000

/- Helper lemmas about the readiness-poll loop. -/

/-- A probe that succeeds terminates the loop immediately with `true`. -/
theorem detectLoop_first_success (p : Nat → Bool) (d : Nat → Nat) (r : Bool)
    (M n k : Nat) (h : n < M) (hp : p k = true) :
    detectLoop p d r M n k = (true, n + d k, k + 1, [Effect.probe k]) := by
  rw [detectLoop]
  simp [h, hp]

/-- With promptly-failing probes and a deadline `now + 500 * j`, the loop
performs exactly `j` probes, finishes exactly at the deadline, and
returns the timed-out result. -/
theorem detectLoop_all_fail (p : Nat → Bool) (d : Nat → Nat) (r : Bool)
    (hp : ∀ i, p i = false) (hd : ∀ i, d i = 0) :
    ∀ (j n k : Nat), detectLoop p d r (n + 500 * j) n k =
      (r, n + 500 * j, k + j, (List.range j).map (fun i => Effect.probe (k + i))) := by
  intro j
  induction j with
  | zero =>
    intro n k
    rw [detectLoop]
    simp
  | succ j ih =>
    intro n k
    rw [detectLoop]
    have h : n < n + 500 * (j + 1) := by omega
    have hM : n + 500 * (j + 1) = (n + 500) + 500 * j := by omega
    rw [dif_pos h, hp k, hd k]
    simp only [Bool.false_eq_true, if_false]
    rw [hM, ih (n + 500) (k + 1)]
    simp only [consProbe, Prod.mk.injEq, true_and]
    refine ⟨by omega, ?_⟩
    rw [List.range_succ_eq_map, List.map_cons, List.map_map]
    refine congrArg₂ List.cons (by simp) ?_
    refine List.map_congr_left (fun i _ => ?_)
    simp only [Function.comp_apply]
    congr 1
    omega

/-- With promptly-failing probes the loop's final clock reading stays
within one 500 ms sleep of the deadline. -/
theorem detectLoop_time_lt (p : Nat → Bool) (d : Nat → Nat) (r : Bool) (M : Nat)
    (hd : ∀ i, d i = 0) :
    ∀ (fb n k : Nat), M - n ≤ fb → n < M + 500 →
      (detectLoop p d r M n k).2.1 < M + 500 := by
  intro fb
  induction fb with
  | zero =>
    intro n k hfb hn
    rw [detectLoop]
    have h : ¬ n < M := by omega
    rw [dif_neg h]
    exact hn
  | succ fb ih =>
    intro n k hfb hn
    rw [detectLoop]
    by_cases h : n < M
    · rw [dif_pos h]
      by_cases hpk : p k = true
      · rw [hpk]
        simp only [if_true, hd k]
        omega
      · rw [Bool.not_eq_true] at hpk
        rw [hpk]
        simp only [Bool.false_eq_true, if_false, hd k]
        have hrec := ih (n + 0 + 500) (k + 1) (by omega) (by omega)
        rcases hx : detectLoop p d r M (n + 0 + 500) (k + 1) with ⟨res, fin, cnt, es⟩
        rw [hx] at hrec
        simp only [consProbe]
        exact hrec
    · rw [dif_neg h]
      exact hn

/-- Every effect emitted by the poll loop is a probe. -/
theorem detectLoop_effects_probe (p : Nat → Bool) (d : Nat → Nat) (r : Bool) (M : Nat) :
    ∀ (fb n k : Nat), M - n ≤ fb →
      ∀ e ∈ (detectLoop p d r M n k).2.2.2, ∃ j, e = Effect.probe j := by
  intro fb
  induction fb with
  | zero =>
    intro n k hfb e he
    rw [detectLoop] at he
    have h : ¬ n < M := by omega
    rw [dif_neg h] at he
    simp at he
  | succ fb ih =>
    intro n k hfb e he
    rw [detectLoop] at he
    by_cases h : n < M
    · rw [dif_pos h] at he
      by_cases hpk : p k = true
      · rw [hpk] at he
        simp only [if_true] at he
        simp at he
        exact ⟨k, he⟩
      · rw [Bool.not_eq_true] at hpk
        rw [hpk] at he
        simp only [Bool.false_eq_true, if_false] at he
        rcases hx : detectLoop p d r M (n + d k + 500) (k + 1) with ⟨res, fin, cnt, es⟩
        rw [hx] at he
        simp only [consProbe, List.mem_cons] at he
        rcases he with he | he
        · exact ⟨k, he⟩
        · have := ih (n + d k + 500) (k + 1) (by omega) e
          rw [hx] at this
          exact this he
    · rw [dif_neg h] at he
      simp at he

/- Helper lemmas about `stop()`. -/

theorem srcTs_stopState_eq (s : State) :
    SrcTs.stopState s =
      { topLevelListeners := s.topLevelListeners, editorChangeListener := false,
        taskHandler := none, currentUrl := none, serverStarted := none,
        statusBar := s.statusBar.map (fun _ => StatusBarState.stopped) } := by
  unfold SrcTs.stopState SrcTs.stop renderStatusBar
  rcases h : s.statusBar with _ | x <;> simp [h]

theorem part000_stopState_eq (s : State) :
    Part000.stopState s =
      { topLevelListeners := s.topLevelListeners, editorChangeListener := false,
        taskHandler := none, currentUrl := none, serverStarted := none,
        statusBar := s.statusBar.map (fun _ => StatusBarState.stopped) } := by
  unfold Part000.stopState Part000.stop renderStatusBar
  rcases h : s.statusBar with _ | x <;> simp [h]

theorem srcTs_stop_fixed (s : State) :
    SrcTs.stopState (SrcTs.stopState s) = SrcTs.stopState s := by
  rw [srcTs_stopState_eq s, srcTs_stopState_eq]
  rcases s.statusBar with _ | x <;> rfl

theorem part000_stop_fixed (s : State) :
    Part000.stopState (Part000.stopState s) = Part000.stopState s := by
  rw [part000_stopState_eq s, part000_stopState_eq]
  rcases s.statusBar with _ | x <;> rfl

theorem srcTs_stop_iter (s : State) :
    ∀ n : Nat, SrcTs.stopState^[n + 1] s = SrcTs.stopState s := by
  intro n
  induction n with
  | zero => rfl
  | succ n ih =>
    rw [Function.iterate_succ_apply', ih, srcTs_stop_fixed]

theorem part000_stop_iter (s : State) :
    ∀ n : Nat, Part000.stopState^[n + 1] s = Part000.stopState s := by
  intro n
  induction n with
  | zero => rfl
  | succ n ih =>
    rw [Function.iterate_succ_apply', ih, part000_stop_fixed]

/-- Claim C2: `stop()` is idempotent: from every controller state, any
number of consecutive `stop()` calls ends with `editorChangeListener`
and `taskHandler` cleared (`false`/`none`), `currentUrl` and
`serverStarted` cleared, and the status indicator (when configured) in
the stopped appearance; `stop()` from the already-stopped state is a
safe no-op (the model is a total function, so no error is possible).
This holds for `src/src/SimpleServer.ts` and for both `part_000`
revisions, whose `stop()` is identical. -/
theorem stop_idempotent (s : State) :
    SrcTs.stopState (SrcTs.stopState s) = SrcTs.stopState s ∧
    (∀ n : Nat, SrcTs.stopState^[n + 1] s = SrcTs.stopState s) ∧
    (SrcTs.stopState s).editorChangeListener = false ∧
    (SrcTs.stopState s).taskHandler = none ∧
    (SrcTs.stopState s).currentUrl = none ∧
    (SrcTs.stopState s).serverStarted = none ∧
    (SrcTs.stopState s).statusBar = s.statusBar.map (fun _ => StatusBarState.stopped) ∧
    Part000.stopState (Part000.stopState s) = Part000.stopState s ∧
    (∀ n : Nat, Part000.stopState^[n + 1] s = Part000.stopState s) ∧
    (Part000.stopState s).editorChangeListener = false ∧
    (Part000.stopState s).taskHandler = none ∧
    (Part000.stopState s).currentUrl = none ∧
    (Part000.stopState s).serverStarted = none ∧
    (Part000.stopState s).statusBar = s.statusBar.map (fun _ => StatusBarState.stopped) := by
  refine ⟨srcTs_stop_fixed s, srcTs_stop_iter s, ?_, ?_, ?_, ?_, ?_,
    part000_stop_fixed s, part000_stop_iter s, ?_, ?_, ?_, ?_, ?_⟩ <;>
    simp [srcTs_stopState_eq, part000_stopState_eq]

/- State-shape helper lemmas for the controller operations. -/

theorem renderStatusBar_state (s : State) (st : StatusBarState) :
    (renderStatusBar s st).1 = { s with statusBar := s.statusBar.map (fun _ => st) } := by
  obtain ⟨a, b, c, d, e, f⟩ := s
  rcases f with _ | x <;> simp [renderStatusBar]

theorem renderStatusBar_effects (s : State) (st : StatusBarState) :
    (renderStatusBar s st).2 = if s.statusBar = none then [] else [Effect.render st] := by
  obtain ⟨a, b, c, d, e, f⟩ := s
  rcases f with _ | x <;> simp [renderStatusBar]

theorem srcTs_startTask_state (env : SrcTs.Env) (s : State) :
    ∃ th, (SrcTs.startTask env s).1 = { s with taskHandler := th } := by
  unfold SrcTs.startTask launchNewTask
  rcases h : env.terminals.find? (fun t => t.name == env.taskName) with _ | t <;>
    simp only [h]
  · exact ⟨some TaskHandler.execution, rfl⟩
  · by_cases hx : t.exitStatus = none
    · rw [if_pos hx]
      exact ⟨some (TaskHandler.reused t.name), rfl⟩
    · rw [if_neg hx]
      exact ⟨some TaskHandler.execution, rfl⟩

theorem srcTs_openUrl_state (env : SrcTs.Env) (s : State) (url : String) :
    ∃ cu, (SrcTs.openUrl env s url).1 = { s with currentUrl := cu } := by
  unfold SrcTs.openUrl
  split
  · exact ⟨s.currentUrl, by cases s; rfl⟩
  · by_cases hss : s.serverStarted = some true
    · simp only [hss, if_true]
      exact ⟨some url, rfl⟩
    · simp only [hss, if_false]
      exact ⟨s.currentUrl, by cases s; rfl⟩

theorem srcTs_navigate_state (env : SrcTs.Env) (s : State) :
    ∃ cu, (SrcTs.navigateCurrentPage env s).1 = { s with currentUrl := cu } := by
  rcases h : env.activeEditor with _ | uri
  · refine ⟨s.currentUrl, ?_⟩
    simp only [SrcTs.navigateCurrentPage, h]
  · by_cases hw : env.inWorkspace uri = true
    · simp only [SrcTs.navigateCurrentPage, h, hw, if_true]
      exact srcTs_openUrl_state env s _
    · refine ⟨s.currentUrl, ?_⟩
      simp only [SrcTs.navigateCurrentPage, h]
      rw [if_neg hw]

theorem srcTs_startRest_fields (env : SrcTs.Env) (s : State) :
    (SrcTs.startRest env s).1.editorChangeListener = s.editorChangeListener ∧
    (SrcTs.startRest env s).1.statusBar = s.statusBar.map (fun _ => StatusBarState.started) ∧
    (SrcTs.startRest env s).1.topLevelListeners = s.topLevelListeners := by
  unfold SrcTs.startRest
  obtain ⟨th, hth⟩ := srcTs_startTask_state env s
  simp only [hth]
  obtain ⟨cu, hcu⟩ := srcTs_navigate_state env
    { s with taskHandler := th, serverStarted := some (SrcTs.detectServer env).1 }
  simp only [hcu]
  rw [renderStatusBar_state]
  simp

theorem srcTs_start_fields (env : SrcTs.Env) (s : State) (h : s.editorChangeListener = false) :
    (SrcTs.start env s).1.editorChangeListener = true ∧
    (SrcTs.start env s).1.statusBar = s.statusBar.map (fun _ => StatusBarState.started) ∧
    (SrcTs.start env s).1.topLevelListeners = s.topLevelListeners := by
  unfold SrcTs.start SrcTs.startPre
  rw [h]
  simp only [Bool.false_eq_true, if_false]
  rw [renderStatusBar_state]
  have rest := srcTs_startRest_fields env
    { s with serverStarted := some false,
             statusBar := s.statusBar.map (fun _ => StatusBarState.spinning),
             editorChangeListener := true }
  simp only [if_true] at rest ⊢
  refine ⟨rest.1, ?_, rest.2.2⟩
  rw [rest.2.1]
  rcases s.statusBar with _ | x <;> rfl

theorem part000_startTaskA_state (env : Part000.Env) (s : State) :
    ∃ th, (Part000.startTaskA env s).1 = { s with currentUrl := none, taskHandler := th } := by
  unfold Part000.startTaskA launchNewTask
  rcases h : env.terminals.find? (fun t => t.name == env.taskName) with _ | t <;>
    simp only [h]
  · exact ⟨some TaskHandler.execution, rfl⟩
  · by_cases hx : t.exitStatus = none
    · rw [if_pos hx]
      exact ⟨some (TaskHandler.reused t.name), rfl⟩
    · rw [if_neg hx]
      exact ⟨some TaskHandler.execution, rfl⟩

theorem part000_startTaskB_state (env : Part000.Env) (s : State) :
    ∃ th, (Part000.startTaskB env s).1 = { s with taskHandler := th } := by
  unfold Part000.startTaskB launchNewTask
  rcases h : env.terminals.find? (fun t => t.name == env.taskName) with _ | t <;>
    simp only [h]
  · exact ⟨some TaskHandler.execution, rfl⟩
  · by_cases hx : t.exitStatus = none
    · rw [if_pos hx]
      exact ⟨some (TaskHandler.reused t.name), rfl⟩
    · rw [if_neg hx]
      exact ⟨some TaskHandler.execution, rfl⟩

theorem part000_openUrl_state (env : Part000.Env) (s : State) (url : String) :
    ∃ cu, (Part000.openUrl env s url).1 = { s with currentUrl := cu } := by
  unfold Part000.openUrl
  split
  · exact ⟨s.currentUrl, by cases s; rfl⟩
  · by_cases hss : s.serverStarted = some true
    · simp only [hss, if_true]
      exact ⟨some url, rfl⟩
    · simp only [hss, if_false]
      exact ⟨s.currentUrl, by cases s; rfl⟩

theorem part000_navigate_state (env : Part000.Env) (s : State) :
    ∃ cu, (Part000.navigateCurrentPage env s).1 = { s with currentUrl := cu } := by
  rcases h : env.activeEditor with _ | uri
  · refine ⟨s.currentUrl, ?_⟩
    simp only [Part000.navigateCurrentPage, h]
  · rcases h2 : env.resolveFor uri with _ | url
    · refine ⟨s.currentUrl, ?_⟩
      simp only [Part000.navigateCurrentPage, h, h2]
    · simp only [Part000.navigateCurrentPage, h, h2]
      exact part000_openUrl_state env s url

theorem part000_startPost_fields (env : Part000.Env) (s : State) :
    (Part000.startPost env s).1.editorChangeListener = s.editorChangeListener ∧
    (Part000.startPost env s).1.serverStarted = s.serverStarted ∧
    (Part000.startPost env s).1.statusBar = s.statusBar.map (fun _ => StatusBarState.started) ∧
    (Part000.startPost env s).1.topLevelListeners = s.topLevelListeners := by
  unfold Part000.startPost
  obtain ⟨cu, hcu⟩ := part000_navigate_state env s
  simp only [hcu]
  rw [renderStatusBar_state]
  simp

theorem part000_startPreA_state (env : Part000.Env) (s : State)
    (h : s.editorChangeListener = false) :
    (Part000.startPreA env s).1 = true ∧
    ∃ th, (Part000.startPreA env s).2.1 =
      { s with editorChangeListener := true, taskHandler := th, currentUrl := none,
               serverStarted := some true,
               statusBar := s.statusBar.map (fun _ => StatusBarState.spinning) } := by
  unfold Part000.startPreA
  rw [h]
  simp only [Bool.false_eq_true, if_false]
  rw [renderStatusBar_state]
  obtain ⟨th, hth⟩ := part000_startTaskA_state env
    { s with serverStarted := some false,
             statusBar := s.statusBar.map (fun _ => StatusBarState.spinning),
             editorChangeListener := true }
  simp only [hth]
  exact ⟨trivial, th, rfl⟩

theorem part000_startPreB_state (env : Part000.Env) (s : State)
    (h : s.editorChangeListener = false) :
    (Part000.startPreB env s).1 = true ∧
    ∃ th, (Part000.startPreB env s).2.1 =
      { s with editorChangeListener := true, taskHandler := th,
               serverStarted := some true,
               statusBar := s.statusBar.map (fun _ => StatusBarState.spinning) } := by
  unfold Part000.startPreB
  rw [h]
  simp only [Bool.false_eq_true, if_false]
  rw [renderStatusBar_state]
  obtain ⟨th, hth⟩ := part000_startTaskB_state env
    { s with serverStarted := some false,
             statusBar := s.statusBar.map (fun _ => StatusBarState.spinning),
             editorChangeListener := true }
  simp only [hth]
  exact ⟨trivial, th, rfl⟩

theorem part000_startA_fields (env : Part000.Env) (s : State)
    (h : s.editorChangeListener = false) :
    (Part000.startA env s).1.editorChangeListener = true ∧
    (Part000.startA env s).1.serverStarted = some true ∧
    (Part000.startA env s).1.statusBar = s.statusBar.map (fun _ => StatusBarState.started) ∧
    (Part000.startA env s).1.topLevelListeners = s.topLevelListeners := by
  obtain ⟨hflag, th, hst⟩ := part000_startPreA_state env s h
  unfold Part000.startA
  simp only [hflag, hst, if_true]
  have post := part000_startPost_fields env
    { s with editorChangeListener := true, taskHandler := th, currentUrl := none,
             serverStarted := some true,
             statusBar := s.statusBar.map (fun _ => StatusBarState.spinning) }
  simp only at post ⊢
  refine ⟨post.1, post.2.1, ?_, post.2.2.2⟩
  rw [post.2.2.1]
  rcases s.statusBar with _ | x <;> rfl

theorem part000_startB_fields (env : Part000.Env) (s : State)
    (h : s.editorChangeListener = false) :
    (Part000.startB env s).1.editorChangeListener = true ∧
    (Part000.startB env s).1.serverStarted = some true ∧
    (Part000.startB env s).1.statusBar = s.statusBar.map (fun _ => StatusBarState.started) ∧
    (Part000.startB env s).1.topLevelListeners = s.topLevelListeners := by
  obtain ⟨hflag, th, hst⟩ := part000_startPreB_state env s h
  unfold Part000.startB
  simp only [hflag, hst, if_true]
  have post := part000_startPost_fields env
    { s with editorChangeListener := true, taskHandler := th,
             serverStarted := some true,
             statusBar := s.statusBar.map (fun _ => StatusBarState.spinning) }
  simp only at post ⊢
  refine ⟨post.1, post.2.1, ?_, post.2.2.2⟩
  rw [post.2.2.1]
  rcases s.statusBar with _ | x <;> rfl

/-- Claim C4: exceeding the readiness-poll timeout never aborts or rolls
back `start()`: for every environment — in particular for every probe
oracle, including one where no probe ever succeeds before the deadline —
a `start()` that passes the entry guard still completes with the editor
listener installed and the status indicator updated to `started`; in the
`part_000` revisions `serverStarted` moreover ends `true`.  (The spec
counts "timeout exceeded and treated as ready" as the `Started` state,
and in all three revisions the indicator is updated to `started`
unconditionally after the poll.) -/
theorem start_reaches_started_regardless_of_poll (env : SrcTs.Env)
    (env2 : Part000.Env) (s : State) (h : s.editorChangeListener = false) :
    (SrcTs.start env s).1.editorChangeListener = true ∧
    (SrcTs.start env s).1.statusBar = s.statusBar.map (fun _ => StatusBarState.started) ∧
    (Part000.startA env2 s).1.editorChangeListener = true ∧
    (Part000.startA env2 s).1.serverStarted = some true ∧
    (Part000.startA env2 s).1.statusBar = s.statusBar.map (fun _ => StatusBarState.started) ∧
    (Part000.startB env2 s).1.editorChangeListener = true ∧
    (Part000.startB env2 s).1.serverStarted = some true ∧
    (Part000.startB env2 s).1.statusBar = s.statusBar.map (fun _ => StatusBarState.started) := by
  obtain ⟨a1, a2, a3⟩ := srcTs_start_fields env s h
  obtain ⟨b1, b2, b3, b4⟩ := part000_startA_fields env2 s h
  obtain ⟨c1, c2, c3, c4⟩ := part000_startB_fields env2 s h
  exact ⟨a1, a2, b1, b2, b3, c1, c2, c3⟩

/-- Concrete environment used by witnesses: one live terminal carrying
the configured task name, probes that never succeed, no active editor. -/
def witEnvSrc : SrcTs.Env :=
  { taskName := "serve", terminals := [{ name := "serve", exitStatus := none }],
    tabGroups := [["Simple Browser"]], rootUrl := "http://localhost:3000/",
    resolveFor := fun _ => "http://localhost:3000/a", activeEditor := none,
    inWorkspace := fun _ => true, probeOk := fun _ => false,
    probeDur := fun _ => 0, startTime := 0 }

/-- Concrete `part_000` environment used by witnesses. -/
def witEnvPart : Part000.Env :=
  { taskName := "serve", terminals := [{ name := "serve", exitStatus := none }],
    tabGroups := [["Simple Browser"]], rootUrl := some "http://localhost:3000/",
    resolveFor := fun _ => some "http://localhost:3000/a", activeEditor := none,
    probeOk := fun _ => false, probeDur := fun _ => 0, startTime := 0,
    checkTimeout := none }

/-- Concrete stopped controller state used by witnesses. -/
def witStopped : State :=
  { topLevelListeners := 2, editorChangeListener := false, taskHandler := none,
    currentUrl := none, serverStarted := none, statusBar := some StatusBarState.stopped }

/-- Witness for C4 at a concrete stopped state and environment. -/
theorem start_reaches_started_regardless_of_poll_witness :
    (SrcTs.start witEnvSrc witStopped).1.editorChangeListener = true ∧
    (Part000.startA witEnvPart witStopped).1.serverStarted = some true := by
  have h := start_reaches_started_regardless_of_poll witEnvSrc witEnvPart witStopped rfl
  exact ⟨h.1, h.2.2.2.1⟩

/-- Claim C7: `isStarted` (the presence of `editorChangeListener`) holds
exactly when the collapsed session state is not `Stopped` (that is, when
the session is Spinning or Started), and a `start()` called while
`isStarted` is true returns at the entry guard leaving every field
unchanged and performing no externally visible call — in all three
revisions. -/
theorem editor_listener_iff_not_stopped_and_start_noop (env : SrcTs.Env)
    (env2 : Part000.Env) (s : State) :
    (SrcTs.isStarted s = true ↔ sessionState s ≠ SessionState.stopped) ∧
    (Part000.isStarted s = true ↔ sessionState s ≠ SessionState.stopped) ∧
    (SrcTs.isStarted s = true → SrcTs.start env s = (s, [])) ∧
    (Part000.isStarted s = true → Part000.startA env2 s = (s, [])) ∧
    (Part000.isStarted s = true → Part000.startB env2 s = (s, [])) := by
  refine ⟨?_, ?_, ?_, ?_, ?_⟩
  · unfold SrcTs.isStarted sessionState
    by_cases h : s.editorChangeListener = true <;> simp [h] <;> split <;> simp
  · unfold Part000.isStarted sessionState
    by_cases h : s.editorChangeListener = true <;> simp [h] <;> split <;> simp
  · intro h
    unfold SrcTs.start SrcTs.startPre
    rw [SrcTs.isStarted] at h
    simp [h]
  · intro h
    unfold Part000.startA Part000.startPreA
    rw [Part000.isStarted] at h
    simp [h]
  · intro h
    unfold Part000.startB Part000.startPreB
    rw [Part000.isStarted] at h
    simp [h]

/-- Concrete running controller state used by witnesses. -/
def witRunning : State :=
  { topLevelListeners := 2, editorChangeListener := true,
    taskHandler := some (TaskHandler.reused "serve"),
    currentUrl := some "http://localhost:3000/a", serverStarted := some true,
    statusBar := some StatusBarState.started }

/-- Witness for C7: at a concrete running state, `start()` is a no-op in
all three revisions and the collapsed state is not Stopped. -/
theorem editor_listener_iff_not_stopped_and_start_noop_witness :
    sessionState witRunning ≠ SessionState.stopped ∧
    SrcTs.start witEnvSrc witRunning = (witRunning, []) ∧
    Part000.startA witEnvPart witRunning = (witRunning, []) ∧
    Part000.startB witEnvPart witRunning = (witRunning, []) := by
  have h := editor_listener_iff_not_stopped_and_start_noop witEnvSrc witEnvPart witRunning
  exact ⟨h.1.mp rfl, h.2.2.1 rfl, h.2.2.2.1 rfl, h.2.2.2.2 rfl⟩

/-- Claim C3: for every navigation request `_openUrl(url)`: when `url`
equals the recorded `currentUrl` and a 'Simple Browser' tab is already
open, the open-preview command is not invoked (and the state is
unchanged); otherwise the open-preview command is invoked exactly once
with beside placement and `preserveFocus`, and `url` is recorded as
`currentUrl` only when `serverStarted` is `true`.  Holds in
`src/src/SimpleServer.ts` and in both `part_000` revisions (identical
`_openUrl`). -/
theorem openUrl_dedup_and_record (env : SrcTs.Env) (env2 : Part000.Env)
    (s : State) (url : String) :
    (s.currentUrl = some url ∧ SrcTs.hasSimpleBrowserOpened env = true →
      SrcTs.openUrl env s url = (s, [])) ∧
    (¬ (s.currentUrl = some url ∧ SrcTs.hasSimpleBrowserOpened env = true) →
      (SrcTs.openUrl env s url).2 = [Effect.openPreview url true true] ∧
      (SrcTs.openUrl env s url).1.currentUrl =
        (if s.serverStarted = some true then some url else s.currentUrl)) ∧
    (s.currentUrl = some url ∧ Part000.hasSimpleBrowserOpened env2 = true →
      Part000.openUrl env2 s url = (s, [])) ∧
    (¬ (s.currentUrl = some url ∧ Part000.hasSimpleBrowserOpened env2 = true) →
      (Part000.openUrl env2 s url).2 = [Effect.openPreview url true true] ∧
      (Part000.openUrl env2 s url).1.currentUrl =
        (if s.serverStarted = some true then some url else s.currentUrl)) := by
  refine ⟨?_, ?_, ?_, ?_⟩
  · intro h
    unfold SrcTs.openUrl
    rw [if_pos h]
  · intro h
    unfold SrcTs.openUrl
    rw [if_neg h]
    by_cases hss : s.serverStarted = some true <;> simp [hss]
  · intro h
    unfold Part000.openUrl
    rw [if_pos h]
  · intro h
    unfold Part000.openUrl
    rw [if_neg h]
    by_cases hss : s.serverStarted = some true <;> simp [hss]

/-- Witness for C3: at `witRunning` (whose `currentUrl` is
`http://localhost:3000/a`) with the preview tab open, re-opening the
same URL is skipped; and from a state with no recorded URL, opening
emits exactly the beside/preserveFocus open-preview command. -/
theorem openUrl_dedup_and_record_witness :
    SrcTs.openUrl witEnvSrc witRunning "http://localhost:3000/a" = (witRunning, []) ∧
    (Part000.openUrl witEnvPart witStopped "http://localhost:3000/a").2 =
      [Effect.openPreview "http://localhost:3000/a" true true] := by
  constructor
  · exact (openUrl_dedup_and_record witEnvSrc witEnvPart witRunning
      "http://localhost:3000/a").1 ⟨rfl, by decide⟩
  · exact ((openUrl_dedup_and_record witEnvSrc witEnvPart witStopped
      "http://localhost:3000/a").2.2.2 (by simp [witStopped])).1

/-- Counterexample to claim C5 as stated: `_detectServer` of
`src/src/SimpleServer.ts` hard-codes a 15000 ms deadline and offers no
configurable timeout, so for a never-responding endpoint with promptly
failing probes (the concrete environment `witEnvSrc`) the poll runs to
15000 ms with 30 probes — it does not terminate within one polling
interval (500 ms) of the claimed 10000 ms default. -/
theorem srcTs_detectServer_exceeds_default_timeout :
    SrcTs.detectServer witEnvSrc =
      (false, 15000, 30, (List.range 30).map Effect.probe) ∧
    ¬ ((SrcTs.detectServer witEnvSrc).2.1 ≤ 10000 + 500) := by
  have h : SrcTs.detectServer witEnvSrc =
      (false, 15000, 30, (List.range 30).map Effect.probe) := by
    unfold SrcTs.detectServer
    simp only [witEnvSrc]
    rw [show (0 + 15 * 1000 : Nat) = 0 + 500 * 30 by norm_num]
    rw [detectLoop_all_fail _ _ _ (fun _ => rfl) (fun _ => rfl) 30 0 0]
    norm_num
  refine ⟨h, ?_⟩
  rw [h]
  norm_num

/-- Amended claim C5: the readiness poller probes at a fixed 500 ms
interval and returns `true` immediately on the first successful request,
in both revisions of `_detectServer`.  For an endpoint that never
responds, with each probe failing promptly, it terminates within one
polling interval of its own deadline — which is the configured
`checkTimeout` (default `10000` ms) in the `part_000` revisions,
attempting exactly 20 probes for that default, but is hard-coded at
`15000` ms (not configurable) in `src/src/SimpleServer.ts`, attempting
exactly 30 probes there. -/
theorem detectServer_poll_timing (env : Part000.Env) (env1 : SrcTs.Env) :
    (env.probeOk 0 = true → 0 < env.checkTimeout.getD 10000 →
      Part000.detectServer env =
        (true, env.startTime + env.probeDur 0, 1, [Effect.probe 0])) ∧
    ((∀ i, env.probeOk i = false) → (∀ i, env.probeDur i = 0) →
      env.checkTimeout = none →
      Part000.detectServer env =
        (true, env.startTime + 10000, 20, (List.range 20).map Effect.probe)) ∧
    ((∀ i, env.probeDur i = 0) →
      (Part000.detectServer env).2.1 <
        env.startTime + env.checkTimeout.getD 10000 + 500) ∧
    (∀ M n k, n < M → env.probeOk k = true →
      detectLoop env.probeOk env.probeDur true M n k =
        (true, n + env.probeDur k, k + 1, [Effect.probe k])) ∧
    (env1.probeOk 0 = true →
      SrcTs.detectServer env1 =
        (true, env1.startTime + env1.probeDur 0, 1, [Effect.probe 0])) ∧
    ((∀ i, env1.probeOk i = false) → (∀ i, env1.probeDur i = 0) →
      SrcTs.detectServer env1 =
        (false, env1.startTime + 15000, 30, (List.range 30).map Effect.probe)) ∧
    ((∀ i, env1.probeDur i = 0) →
      (SrcTs.detectServer env1).2.1 < env1.startTime + 15000 + 500) := by
  refine ⟨?_, ?_, ?_, ?_, ?_, ?_, ?_⟩
  · intro hp ht
    unfold Part000.detectServer
    exact detectLoop_first_success _ _ _ _ _ _ (by omega) hp
  · intro hp hd ht
    unfold Part000.detectServer
    rw [ht]
    have h20 : env.startTime + (10000 : Nat) = env.startTime + 500 * 20 := by norm_num
    simp only [Option.getD]
    rw [h20, detectLoop_all_fail env.probeOk env.probeDur true hp hd 20 env.startTime 0]
    norm_num
  · intro hd
    unfold Part000.detectServer
    exact detectLoop_time_lt env.probeOk env.probeDur true _ hd
      (env.startTime + env.checkTimeout.getD 10000 - env.startTime) env.startTime 0
      (le_refl _) (by omega)
  · exact fun M n k hn hp => detectLoop_first_success _ _ _ M n k hn hp
  · intro hp
    unfold SrcTs.detectServer
    exact detectLoop_first_success _ _ _ _ _ _ (by omega) hp
  · intro hp hd
    unfold SrcTs.detectServer
    rw [show env1.startTime + 15 * 1000 = env1.startTime + 500 * 30 by norm_num]
    rw [detectLoop_all_fail env1.probeOk env1.probeDur false hp hd 30 env1.startTime 0]
    norm_num
  · intro hd
    unfold SrcTs.detectServer
    have := detectLoop_time_lt env1.probeOk env1.probeDur false
      (env1.startTime + 15 * 1000) hd
      (env1.startTime + 15 * 1000 - env1.startTime) env1.startTime 0
      (le_refl _) (by omega)
    omega

/-- Witness for the amended C5: the concrete never-responding
environments attempt 20 probes up to the 10000 ms default deadline in
the `part_000` revision and 30 probes up to the hard-coded 15000 ms
deadline in `src/src/SimpleServer.ts`. -/
theorem detectServer_poll_timing_witness :
    Part000.detectServer witEnvPart =
      (true, 10000, 20, (List.range 20).map Effect.probe) ∧
    SrcTs.detectServer witEnvSrc =
      (false, 15000, 30, (List.range 30).map Effect.probe) := by
  have h := (detectServer_poll_timing witEnvPart witEnvSrc).2.1
    (fun _ => rfl) (fun _ => rfl) rfl
  have h2 := (detectServer_poll_timing witEnvPart witEnvSrc).2.2.2.2.2.1
    (fun _ => rfl) (fun _ => rfl)
  constructor
  · simpa [witEnvPart] using h
  · simpa [witEnvSrc] using h2

/- Reuse and effect-shape lemmas for `_startTask` and navigation. -/

theorem srcTs_startTask_reuse (env : SrcTs.Env) (s : State) (t : Terminal)
    (hfind : env.terminals.find? (fun x => x.name == env.taskName) = some t)
    (hlive : t.exitStatus = none) :
    SrcTs.startTask env s =
      ({ s with taskHandler := some (TaskHandler.reused t.name) }, []) := by
  unfold SrcTs.startTask
  simp only [hfind]
  rw [if_pos hlive]

theorem part000_startTaskA_reuse (env : Part000.Env) (s : State) (t : Terminal)
    (hfind : env.terminals.find? (fun x => x.name == env.taskName) = some t)
    (hlive : t.exitStatus = none) :
    Part000.startTaskA env s =
      ({ s with currentUrl := none, taskHandler := some (TaskHandler.reused t.name) }, []) := by
  unfold Part000.startTaskA
  simp only [hfind]
  rw [if_pos hlive]

theorem part000_startTaskB_reuse (env : Part000.Env) (s : State) (t : Terminal)
    (hfind : env.terminals.find? (fun x => x.name == env.taskName) = some t)
    (hlive : t.exitStatus = none) :
    Part000.startTaskB env s =
      ({ s with taskHandler := some (TaskHandler.reused t.name) }, []) := by
  unfold Part000.startTaskB
  simp only [hfind]
  rw [if_pos hlive]

theorem renderStatusBar_effects_shape (s : State) (st : StatusBarState) :
    (renderStatusBar s st).2 = [] ∨ (renderStatusBar s st).2 = [Effect.render st] := by
  rw [renderStatusBar_effects]
  split
  · left; rfl
  · right; rfl

theorem srcTs_startTask_effects_shape (env : SrcTs.Env) (s : State) :
    (SrcTs.startTask env s).2 = [] ∨
    (SrcTs.startTask env s).2 = [Effect.invokeCommandProvider, Effect.executeTask] := by
  unfold SrcTs.startTask launchNewTask
  rcases h : env.terminals.find? (fun t => t.name == env.taskName) with _ | t <;>
    simp only [h]
  · trivial
  · by_cases hx : t.exitStatus = none
    · rw [if_pos hx]; left; rfl
    · rw [if_neg hx]; right; rfl

theorem part000_startTaskA_effects_shape (env : Part000.Env) (s : State) :
    (Part000.startTaskA env s).2 = [] ∨
    (Part000.startTaskA env s).2 = [Effect.invokeCommandProvider, Effect.executeTask] := by
  unfold Part000.startTaskA launchNewTask
  rcases h : env.terminals.find? (fun t => t.name == env.taskName) with _ | t <;>
    simp only [h]
  · trivial
  · by_cases hx : t.exitStatus = none
    · rw [if_pos hx]; left; rfl
    · rw [if_neg hx]; right; rfl

theorem part000_startTaskB_effects_shape (env : Part000.Env) (s : State) :
    (Part000.startTaskB env s).2 = [] ∨
    (Part000.startTaskB env s).2 = [Effect.invokeCommandProvider, Effect.executeTask] := by
  unfold Part000.startTaskB launchNewTask
  rcases h : env.terminals.find? (fun t => t.name == env.taskName) with _ | t <;>
    simp only [h]
  · trivial
  · by_cases hx : t.exitStatus = none
    · rw [if_pos hx]; left; rfl
    · rw [if_neg hx]; right; rfl

theorem srcTs_openUrl_effects_shape (env : SrcTs.Env) (s : State) (url : String) :
    (SrcTs.openUrl env s url).2 = [] ∨
    (SrcTs.openUrl env s url).2 = [Effect.openPreview url true true] := by
  unfold SrcTs.openUrl
  split
  · left; rfl
  · right; rfl

theorem part000_openUrl_effects_shape (env : Part000.Env) (s : State) (url : String) :
    (Part000.openUrl env s url).2 = [] ∨
    (Part000.openUrl env s url).2 = [Effect.openPreview url true true] := by
  unfold Part000.openUrl
  split
  · left; rfl
  · right; rfl

theorem srcTs_navigate_effects_shape (env : SrcTs.Env) (s : State) :
    (SrcTs.navigateCurrentPage env s).2 = [] ∨
    ∃ u, (SrcTs.navigateCurrentPage env s).2 = [Effect.openPreview u true true] := by
  rcases h : env.activeEditor with _ | uri
  · left
    simp only [SrcTs.navigateCurrentPage, h]
  · by_cases hw : env.inWorkspace uri = true
    · simp only [SrcTs.navigateCurrentPage, h, hw, if_true]
      rcases srcTs_openUrl_effects_shape env s (env.resolveFor uri) with h2 | h2
      · left; exact h2
      · right; exact ⟨_, h2⟩
    · left
      simp only [SrcTs.navigateCurrentPage, h]
      rw [if_neg hw]

theorem part000_navigate_effects_shape (env : Part000.Env) (s : State) :
    (Part000.navigateCurrentPage env s).2 = [] ∨
    ∃ u, (Part000.navigateCurrentPage env s).2 = [Effect.openPreview u true true] := by
  rcases h : env.activeEditor with _ | uri
  · left
    simp only [Part000.navigateCurrentPage, h]
  · rcases h2 : env.resolveFor uri with _ | url
    · left
      simp only [Part000.navigateCurrentPage, h, h2]
    · simp only [Part000.navigateCurrentPage, h, h2]
      rcases part000_openUrl_effects_shape env s url with h3 | h3
      · left; exact h3
      · right; exact ⟨_, h3⟩

theorem srcTs_startPre_eq (s : State) (h : s.editorChangeListener = false) :
    SrcTs.startPre s =
      (true,
       { s with serverStarted := some false, editorChangeListener := true,
                statusBar := s.statusBar.map (fun _ => StatusBarState.spinning) },
       (renderStatusBar { s with serverStarted := some false } StatusBarState.spinning).2) := by
  unfold SrcTs.startPre
  rw [h]
  simp only [Bool.false_eq_true, if_false]
  rw [renderStatusBar_state]

theorem srcTs_start_effects_eq (env : SrcTs.Env) (s : State)
    (h : s.editorChangeListener = false) :
    (SrcTs.start env s).2 =
      (renderStatusBar { s with serverStarted := some false } StatusBarState.spinning).2 ++
      (SrcTs.startRest env
        { s with serverStarted := some false, editorChangeListener := true,
                 statusBar := s.statusBar.map (fun _ => StatusBarState.spinning) }).2 := by
  unfold SrcTs.start
  rw [srcTs_startPre_eq s h]
  simp

theorem srcTs_startRest_effects_eq (env : SrcTs.Env) (s : State) :
    (SrcTs.startRest env s).2 =
      (SrcTs.startTask env s).2 ++
        Effect.resolveRootUrl :: (SrcTs.detectServer env).2.2.2 ++
        (SrcTs.navigateCurrentPage env
          { (SrcTs.startTask env s).1 with
            serverStarted := some (SrcTs.detectServer env).1 }).2 ++
        (renderStatusBar
          (SrcTs.navigateCurrentPage env
            { (SrcTs.startTask env s).1 with
              serverStarted := some (SrcTs.detectServer env).1 }).1
          StatusBarState.started).2 := by
  unfold SrcTs.startRest
  rfl

theorem part000_startPreA_effects_eq (env : Part000.Env) (s : State)
    (h : s.editorChangeListener = false) :
    (Part000.startPreA env s).2.2 =
      (renderStatusBar { s with serverStarted := some false } StatusBarState.spinning).2 ++
      (Part000.startTaskA env
        { s with serverStarted := some false, editorChangeListener := true,
                 statusBar := s.statusBar.map (fun _ => StatusBarState.spinning) }).2 := by
  unfold Part000.startPreA
  rw [h]
  simp only [Bool.false_eq_true, if_false]
  rw [renderStatusBar_state]

theorem part000_startPreB_effects_eq (env : Part000.Env) (s : State)
    (h : s.editorChangeListener = false) :
    (Part000.startPreB env s).2.2 =
      (renderStatusBar { s with serverStarted := some false } StatusBarState.spinning).2 ++
      (Part000.startTaskB env
        { s with serverStarted := some false, editorChangeListener := true,
                 statusBar := s.statusBar.map (fun _ => StatusBarState.spinning) }).2 := by
  unfold Part000.startPreB
  rw [h]
  simp only [Bool.false_eq_true, if_false]
  rw [renderStatusBar_state]

theorem part000_startA_effects_eq (env : Part000.Env) (s : State)
    (h : s.editorChangeListener = false) :
    (Part000.startA env s).2 =
      (Part000.startPreA env s).2.2 ++
      (Part000.startPost env (Part000.startPreA env s).2.1).2 := by
  unfold Part000.startA
  have hflag := (part000_startPreA_state env s h).1
  simp only [hflag, if_true]

theorem part000_startB_effects_eq (env : Part000.Env) (s : State)
    (h : s.editorChangeListener = false) :
    (Part000.startB env s).2 =
      (Part000.startPreB env s).2.2 ++
      (Part000.startPost env (Part000.startPreB env s).2.1).2 := by
  unfold Part000.startB
  have hflag := (part000_startPreB_state env s h).1
  simp only [hflag, if_true]

theorem part000_startPost_effects_eq (env : Part000.Env) (s : State) :
    (Part000.startPost env s).2 =
      Effect.resolveRootUrl ::
        (match env.rootUrl with
         | some _ => (Part000.detectServer env).2.2.2
         | none => []) ++
        (Part000.navigateCurrentPage env s).2 ++
        (renderStatusBar (Part000.navigateCurrentPage env s).1 StatusBarState.started).2 := by
  unfold Part000.startPost
  rfl

theorem part000_detectServer_effects_probe (env : Part000.Env) :
    ∀ e ∈ (Part000.detectServer env).2.2.2, ∃ j, e = Effect.probe j := by
  unfold Part000.detectServer
  exact fun e he =>
    detectLoop_effects_probe env.probeOk env.probeDur true _ _ _ 0 (le_refl _) e he

theorem srcTs_detectServer_effects_probe (env : SrcTs.Env) :
    ∀ e ∈ (SrcTs.detectServer env).2.2.2, ∃ j, e = Effect.probe j := by
  unfold SrcTs.detectServer
  exact fun e he =>
    detectLoop_effects_probe env.probeOk env.probeDur false _ _ _ 0 (le_refl _) e he

theorem part000_startPost_no_provider (env : Part000.Env) (s : State) :
    Effect.invokeCommandProvider ∉ (Part000.startPost env s).2 := by
  rw [part000_startPost_effects_eq]
  intro hmem
  simp only [List.mem_append, List.mem_cons] at hmem
  rcases hmem with ((h1 | h1) | h1) | h1
  · exact absurd h1 (by simp)
  · rcases hr : env.rootUrl with _ | u <;> rw [hr] at h1
    · simp at h1
    · simp only at h1
      obtain ⟨j, hj⟩ := part000_detectServer_effects_probe env _ h1
      exact absurd hj (by simp)
  · rcases part000_navigate_effects_shape env s with h2 | ⟨u, h2⟩ <;>
      rw [h2] at h1 <;> simp at h1
  · rcases renderStatusBar_effects_shape (Part000.navigateCurrentPage env s).1
      StatusBarState.started with h2 | h2 <;> rw [h2] at h1 <;> simp at h1

theorem srcTs_start_no_provider_of_reuse (env : SrcTs.Env) (s : State) (t : Terminal)
    (hfind : env.terminals.find? (fun x => x.name == env.taskName) = some t)
    (hlive : t.exitStatus = none) (h : s.editorChangeListener = false) :
    Effect.invokeCommandProvider ∉ (SrcTs.start env s).2 := by
  rw [srcTs_start_effects_eq env s h, srcTs_startRest_effects_eq,
    srcTs_startTask_reuse env _ t hfind hlive]
  intro hmem
  simp only [List.mem_append, List.mem_cons, List.not_mem_nil, or_assoc, false_or,
    or_false] at hmem
  rcases hmem with h1 | h1 | h1 | h1 | h1
  · rcases renderStatusBar_effects_shape { s with serverStarted := some false }
      StatusBarState.spinning with h2 | h2 <;> rw [h2] at h1 <;> simp at h1
  · exact absurd h1 (by simp)
  · obtain ⟨j, hj⟩ := srcTs_detectServer_effects_probe env _ h1
    exact absurd hj (by simp)
  · rcases srcTs_navigate_effects_shape env
      { s with editorChangeListener := true,
               taskHandler := some (TaskHandler.reused t.name),
               serverStarted := some (SrcTs.detectServer env).1,
               statusBar := s.statusBar.map (fun _ => StatusBarState.spinning) }
      with h2 | ⟨u, h2⟩ <;> rw [h2] at h1 <;> simp at h1
  · rcases renderStatusBar_effects_shape
      (SrcTs.navigateCurrentPage env
        { s with editorChangeListener := true,
                 taskHandler := some (TaskHandler.reused t.name),
                 serverStarted := some (SrcTs.detectServer env).1,
                 statusBar := s.statusBar.map (fun _ => StatusBarState.spinning) }).1
      StatusBarState.started with h2 | h2 <;> rw [h2] at h1 <;> simp at h1

theorem part000_startA_no_provider_of_reuse (env : Part000.Env) (s : State) (t : Terminal)
    (hfind : env.terminals.find? (fun x => x.name == env.taskName) = some t)
    (hlive : t.exitStatus = none) (h : s.editorChangeListener = false) :
    Effect.invokeCommandProvider ∉ (Part000.startA env s).2 := by
  rw [part000_startA_effects_eq env s h]
  intro hmem
  rw [List.mem_append] at hmem
  rcases hmem with h1 | h1
  · rw [part000_startPreA_effects_eq env s h,
      part000_startTaskA_reuse env _ t hfind hlive] at h1
    simp only [List.mem_append, List.not_mem_nil, or_false] at h1
    rcases renderStatusBar_effects_shape { s with serverStarted := some false }
      StatusBarState.spinning with h2 | h2 <;> rw [h2] at h1 <;> simp at h1
  · exact part000_startPost_no_provider env _ h1

theorem part000_startB_no_provider_of_reuse (env : Part000.Env) (s : State) (t : Terminal)
    (hfind : env.terminals.find? (fun x => x.name == env.taskName) = some t)
    (hlive : t.exitStatus = none) (h : s.editorChangeListener = false) :
    Effect.invokeCommandProvider ∉ (Part000.startB env s).2 := by
  rw [part000_startB_effects_eq env s h]
  intro hmem
  rw [List.mem_append] at hmem
  rcases hmem with h1 | h1
  · rw [part000_startPreB_effects_eq env s h,
      part000_startTaskB_reuse env _ t hfind hlive] at h1
    simp only [List.mem_append, List.not_mem_nil, or_false] at h1
    rcases renderStatusBar_effects_shape { s with serverStarted := some false }
      StatusBarState.spinning with h2 | h2 <;> rw [h2] at h1 <;> simp at h1
  · exact part000_startPost_no_provider env _ h1

/-- Environment refuting claim C1 exactly as stated: the terminal list
holds an exited terminal named `serve` before a live terminal with the
same name.  `window.terminals.find(...)` selects the first match — the
exited one — so `_startTask` launches a new task and invokes the
command provider even though a live terminal carrying the task name
exists. -/
def c1Env : SrcTs.Env :=
  { taskName := "serve",
    terminals := [{ name := "serve", exitStatus := some 0 },
                  { name := "serve", exitStatus := none }],
    tabGroups := [], rootUrl := "http://localhost:3000/",
    resolveFor := fun _ => "http://localhost:3000/a", activeEditor := none,
    inWorkspace := fun _ => true, probeOk := fun _ => true,
    probeDur := fun _ => 0, startTime := 0 }

theorem c1_startTask_launches (s : State) :
    (SrcTs.startTask c1Env s).2 = [Effect.invokeCommandProvider, Effect.executeTask] := by
  simp [SrcTs.startTask, c1Env, launchNewTask, List.find?]

/-- Counterexample to claim C1 as stated: in `c1Env` a terminal carrying
the configured task name exists and has not exited, yet `start()` from
the stopped state invokes the command provider, because `_startTask`
keys its reuse check to the first same-named terminal found, which here
has exited. -/
theorem start_invokes_provider_despite_live_terminal :
    (∃ t ∈ c1Env.terminals, t.name = c1Env.taskName ∧ t.exitStatus = none) ∧
    Effect.invokeCommandProvider ∈ (SrcTs.start c1Env witStopped).2 := by
  refine ⟨⟨{ name := "serve", exitStatus := none }, by simp [c1Env], rfl, rfl⟩, ?_⟩
  rw [srcTs_start_effects_eq c1Env witStopped rfl, srcTs_startRest_effects_eq,
    c1_startTask_launches]
  simp

/-- Amended claim C1: the reuse check is keyed to the FIRST terminal (in
the terminal list's order) whose name equals the configured task name.
Whenever that first match has not exited, `start()` adopts it as the
task handle and the command provider is never invoked during that
`start()` — in `src/src/SimpleServer.ts` and in both `part_000`
revisions. -/
theorem startTask_first_match_reuse (env : SrcTs.Env) (env2 : Part000.Env)
    (s : State) (t : Terminal)
    (hfind : env.terminals.find? (fun x => x.name == env.taskName) = some t)
    (hfind2 : env2.terminals.find? (fun x => x.name == env2.taskName) = some t)
    (hlive : t.exitStatus = none) (h : s.editorChangeListener = false) :
    (SrcTs.startTask env s).1.taskHandler = some (TaskHandler.reused t.name) ∧
    (SrcTs.startTask env s).2 = [] ∧
    Effect.invokeCommandProvider ∉ (SrcTs.start env s).2 ∧
    (Part000.startTaskA env2 s).1.taskHandler = some (TaskHandler.reused t.name) ∧
    Effect.invokeCommandProvider ∉ (Part000.startA env2 s).2 ∧
    (Part000.startTaskB env2 s).1.taskHandler = some (TaskHandler.reused t.name) ∧
    Effect.invokeCommandProvider ∉ (Part000.startB env2 s).2 := by
  refine ⟨?_, ?_, srcTs_start_no_provider_of_reuse env s t hfind hlive h, ?_,
    part000_startA_no_provider_of_reuse env2 s t hfind2 hlive h, ?_,
    part000_startB_no_provider_of_reuse env2 s t hfind2 hlive h⟩
  · rw [srcTs_startTask_reuse env s t hfind hlive]
  · rw [srcTs_startTask_reuse env s t hfind hlive]
  · rw [part000_startTaskA_reuse env2 s t hfind2 hlive]
  · rw [part000_startTaskB_reuse env2 s t hfind2 hlive]

/-- Witness for the amended C1 at the concrete single-live-terminal
environment: the live terminal is adopted and the provider is not
invoked. -/
theorem startTask_first_match_reuse_witness :
    (SrcTs.startTask witEnvSrc witStopped).1.taskHandler =
      some (TaskHandler.reused "serve") ∧
    Effect.invokeCommandProvider ∉ (SrcTs.start witEnvSrc witStopped).2 ∧
    Effect.invokeCommandProvider ∉ (Part000.startA witEnvPart witStopped).2 := by
  have h := startTask_first_match_reuse witEnvSrc witEnvPart witStopped
    { name := "serve", exitStatus := none } (by decide) (by decide) rfl rfl
  exact ⟨h.1, h.2.2.1, h.2.2.2.2.1⟩

/-- Environment for the C6 counterexample: one live same-named terminal
(so `_startTask` reuses it), an immediately-successful probe, and no
active editor. -/
def c6Env : SrcTs.Env :=
  { taskName := "serve", terminals := [{ name := "serve", exitStatus := none }],
    tabGroups := [], rootUrl := "http://localhost:3000/",
    resolveFor := fun _ => "http://localhost:3000/a", activeEditor := none,
    inWorkspace := fun _ => true, probeOk := fun _ => true,
    probeDur := fun _ => 0, startTime := 0 }

/-- Counterexample to claim C6 as stated: in `src/src/SimpleServer.ts`,
a `start()` that proceeds past the entry guard does NOT reset
`currentUrl` — from a state carrying the stale recorded URL `stale`,
the completed `start()` still carries `currentUrl = some "stale"`. -/
theorem srcTs_start_keeps_stale_currentUrl :
    ({ witStopped with currentUrl := some "stale" } : State).editorChangeListener = false ∧
    (SrcTs.start c6Env { witStopped with currentUrl := some "stale" }).1.currentUrl =
      some "stale" := by
  constructor
  · rfl
  · simp [SrcTs.start, SrcTs.startPre, SrcTs.startRest, SrcTs.startTask,
      SrcTs.navigateCurrentPage, SrcTs.detectServer, detectLoop, renderStatusBar,
      c6Env, witStopped, List.find?]

/-- Amended claim C6: `currentUrl` is reset to empty on every `stop()`
in all three revisions; on `start()`, only the logger-carrying
`part_000` revision resets it (at the top of its `_startTask`), so only
in that revision is a fresh session's first resolved URL guaranteed not
to be deduplicated against a stale value; the `src/src/SimpleServer.ts`
revision and the second `part_000` revision leave a pre-existing
`currentUrl` in place across `start()`. -/
theorem currentUrl_reset_on_stop_and_part000A_startTask
    (env : Part000.Env) (s : State) :
    (SrcTs.stopState s).currentUrl = none ∧
    (Part000.stopState s).currentUrl = none ∧
    (Part000.startTaskA env s).1.currentUrl = none := by
  refine ⟨?_, ?_, ?_⟩
  · rw [srcTs_stopState_eq]
  · rw [part000_stopState_eq]
  · obtain ⟨th, hth⟩ := part000_startTaskA_state env s
    rw [hth]

theorem srcTs_construct_listeners (env : SrcTs.Env) (a b : Bool) :
    (SrcTs.construct env a b).1.topLevelListeners = 2 := by
  unfold SrcTs.construct
  dsimp only []
  rcases a with _ | _
  · rcases b with _ | _ <;> simp
  · rw [srcTs_startPre_eq _ rfl]
    rcases b with _ | _ <;> simp only [Bool.false_eq_true, if_false, if_true]
    · exact (srcTs_startRest_fields env _).2.2
    · exact (srcTs_startRest_fields env _).2.2

theorem part000_construct_listeners (env : Part000.Env) (a b : Bool) :
    (Part000.construct env a b).1.topLevelListeners = 2 := by
  unfold Part000.construct
  dsimp only []
  rcases b with _ | _ <;> simp only [Bool.false_eq_true, if_false, if_true] <;>
    rcases a with _ | _ <;> simp only [Bool.false_eq_true, if_false, if_true] <;>
    first
    | rfl
    | exact (part000_startA_fields env _ rfl).2.2.2

/-- Claim C8: dispatching a task-ended notification whose task name
equals the configured task name, or a terminal-closed notification whose
terminal name equals the configured task name, runs `stop()` — the
session ends Stopped with `editorChangeListener` and `taskHandler` both
cleared.  The two listeners are registered once at construction
(`_disposables` has length 2 for every constructor-flag combination),
persist across `stop()`/`start()` (neither changes `_disposables`), and
are released only by `dispose()`.  Holds for `src/src/SimpleServer.ts`
and the `part_000` revisions. -/
theorem named_task_end_triggers_stop (env : SrcTs.Env) (env2 : Part000.Env)
    (s : State) (name : String) :
    (name = env.taskName →
      SrcTs.onDidEndTask env name s = SrcTs.stop s ∧
      SrcTs.onDidCloseTerminal env name s = SrcTs.stop s ∧
      (SrcTs.onDidEndTask env name s).1.editorChangeListener = false ∧
      (SrcTs.onDidEndTask env name s).1.taskHandler = none) ∧
    (name = env2.taskName →
      Part000.onDidEndTask env2 name s = Part000.stop s ∧
      Part000.onDidCloseTerminal env2 name s = Part000.stop s ∧
      (Part000.onDidEndTask env2 name s).1.editorChangeListener = false ∧
      (Part000.onDidEndTask env2 name s).1.taskHandler = none) ∧
    (∀ a b : Bool, (SrcTs.construct env a b).1.topLevelListeners = 2) ∧
    (∀ a b : Bool, (Part000.construct env2 a b).1.topLevelListeners = 2) ∧
    (SrcTs.stop s).1.topLevelListeners = s.topLevelListeners ∧
    (Part000.stop s).1.topLevelListeners = s.topLevelListeners ∧
    (s.editorChangeListener = false →
      (SrcTs.start env s).1.topLevelListeners = s.topLevelListeners ∧
      (Part000.startA env2 s).1.topLevelListeners = s.topLevelListeners ∧
      (Part000.startB env2 s).1.topLevelListeners = s.topLevelListeners) ∧
    (SrcTs.dispose s).1.topLevelListeners = 0 ∧
    (Part000.dispose s).1.topLevelListeners = 0 := by
  refine ⟨?_, ?_, srcTs_construct_listeners env, part000_construct_listeners env2,
    ?_, ?_, ?_, ?_, ?_⟩
  · intro hn
    unfold SrcTs.onDidEndTask SrcTs.onDidCloseTerminal
    rw [if_pos hn]
    have h1 : (SrcTs.stop s).1.editorChangeListener = false := by
      have := srcTs_stopState_eq s
      unfold SrcTs.stopState at this
      rw [this]
    have h2 : (SrcTs.stop s).1.taskHandler = none := by
      have := srcTs_stopState_eq s
      unfold SrcTs.stopState at this
      rw [this]
    exact ⟨rfl, rfl, h1, h2⟩
  · intro hn
    unfold Part000.onDidEndTask Part000.onDidCloseTerminal
    rw [if_pos hn]
    have h1 : (Part000.stop s).1.editorChangeListener = false := by
      have := part000_stopState_eq s
      unfold Part000.stopState at this
      rw [this]
    have h2 : (Part000.stop s).1.taskHandler = none := by
      have := part000_stopState_eq s
      unfold Part000.stopState at this
      rw [this]
    exact ⟨rfl, rfl, h1, h2⟩
  · have := srcTs_stopState_eq s
    unfold SrcTs.stopState at this
    rw [this]
  · have := part000_stopState_eq s
    unfold Part000.stopState at this
    rw [this]
  · intro h
    exact ⟨(srcTs_start_fields env s h).2.2,
      (part000_startA_fields env2 s h).2.2.2,
      (part000_startB_fields env2 s h).2.2.2⟩
  · unfold SrcTs.dispose
    rfl
  · unfold Part000.dispose
    rfl

/-- Witness for C8: at the concrete running state, a task-ended
notification carrying the configured name collapses the session to
Stopped with both handles cleared. -/
theorem named_task_end_triggers_stop_witness :
    (SrcTs.onDidEndTask witEnvSrc "serve" witRunning).1.editorChangeListener = false ∧
    (SrcTs.onDidEndTask witEnvSrc "serve" witRunning).1.taskHandler = none ∧
    (Part000.onDidEndTask witEnvPart "serve" witRunning).1.taskHandler = none := by
  have h := named_task_end_triggers_stop witEnvSrc witEnvPart witRunning "serve"
  exact ⟨(h.1 rfl).2.2.1, (h.1 rfl).2.2.2, (h.2.1 rfl).2.2.2⟩

/-- Claim C9: in both `part_000` revisions, `start()` sets
`serverStarted` to `true` unconditionally immediately after the task
launch returns: the phase of `start()` ending at that assignment
(`startPreA`/`startPreB`) completes with `serverStarted = some true`
while its effect trace contains neither the root-URL resolution nor any
readiness probe, and the completed `start()` ends with
`serverStarted = some true` for every probe oracle — so `_openUrl`
records `currentUrl` from that point on (whenever it is not
deduplicated), even if the server never responds to any probe. -/
theorem part000_start_sets_serverStarted_before_resolve
    (env : Part000.Env) (s : State) (url : String)
    (h : s.editorChangeListener = false) :
    (Part000.startPreA env s).1 = true ∧
    (Part000.startPreA env s).2.1.serverStarted = some true ∧
    (∀ e ∈ (Part000.startPreA env s).2.2,
      e ≠ Effect.resolveRootUrl ∧ ∀ j, e ≠ Effect.probe j) ∧
    (Part000.startA env s).1.serverStarted = some true ∧
    (Part000.startPreB env s).1 = true ∧
    (Part000.startPreB env s).2.1.serverStarted = some true ∧
    (∀ e ∈ (Part000.startPreB env s).2.2,
      e ≠ Effect.resolveRootUrl ∧ ∀ j, e ≠ Effect.probe j) ∧
    (Part000.startB env s).1.serverStarted = some true ∧
    (s.serverStarted = some true →
      ¬ (s.currentUrl = some url ∧ Part000.hasSimpleBrowserOpened env = true) →
      (Part000.openUrl env s url).1.currentUrl = some url) := by
  obtain ⟨hfA, thA, hsA⟩ := part000_startPreA_state env s h
  obtain ⟨hfB, thB, hsB⟩ := part000_startPreB_state env s h
  refine ⟨hfA, by rw [hsA], ?_, (part000_startA_fields env s h).2.1,
    hfB, by rw [hsB], ?_, (part000_startB_fields env s h).2.1, ?_⟩
  · intro e he
    rw [part000_startPreA_effects_eq env s h, List.mem_append] at he
    rcases he with he | he
    · rcases renderStatusBar_effects_shape { s with serverStarted := some false }
        StatusBarState.spinning with h2 | h2 <;> rw [h2] at he <;> simp at he
      subst he
      exact ⟨by simp, fun j => by simp⟩
    · rcases part000_startTaskA_effects_shape env
        { s with serverStarted := some false, editorChangeListener := true,
                 statusBar := s.statusBar.map (fun _ => StatusBarState.spinning) }
        with h2 | h2 <;> rw [h2] at he <;> simp at he
      rcases he with he | he <;> subst he <;> exact ⟨by simp, fun j => by simp⟩
  · intro e he
    rw [part000_startPreB_effects_eq env s h, List.mem_append] at he
    rcases he with he | he
    · rcases renderStatusBar_effects_shape { s with serverStarted := some false }
        StatusBarState.spinning with h2 | h2 <;> rw [h2] at he <;> simp at he
      subst he
      exact ⟨by simp, fun j => by simp⟩
    · rcases part000_startTaskB_effects_shape env
        { s with serverStarted := some false, editorChangeListener := true,
                 statusBar := s.statusBar.map (fun _ => StatusBarState.spinning) }
        with h2 | h2 <;> rw [h2] at he <;> simp at he
      rcases he with he | he <;> subst he <;> exact ⟨by simp, fun j => by simp⟩
  · intro hss hcond
    unfold Part000.openUrl
    rw [if_neg hcond]
    simp [hss]

/-- Witness for C9: from the concrete stopped state with never-succeeding
probes, `start()` of the logger revision ends with `serverStarted` true,
and `_openUrl` on a state with `serverStarted` true records the URL. -/
theorem part000_start_sets_serverStarted_before_resolve_witness :
    (Part000.startA witEnvPart witStopped).1.serverStarted = some true ∧
    (Part000.openUrl witEnvPart { witStopped with serverStarted := some true }
      "http://localhost:3000/a").1.currentUrl = some "http://localhost:3000/a" := by
  have h1 := part000_start_sets_serverStarted_before_resolve witEnvPart witStopped
    "http://localhost:3000/a" rfl
  have h2 := part000_start_sets_serverStarted_before_resolve witEnvPart
    { witStopped with serverStarted := some true } "http://localhost:3000/a" rfl
  exact ⟨h1.2.2.2.1, h2.2.2.2.2.2.2.2.2 rfl (by decide)⟩

theorem srcTs_startTask_filter_render (env : SrcTs.Env) (s : State) :
    (SrcTs.startTask env s).2.filter isRender = [] := by
  rcases srcTs_startTask_effects_shape env s with h2 | h2 <;> rw [h2] <;> rfl

theorem srcTs_navigate_filter_render (env : SrcTs.Env) (s : State) :
    (SrcTs.navigateCurrentPage env s).2.filter isRender = [] := by
  rcases srcTs_navigate_effects_shape env s with h2 | ⟨u, h2⟩ <;> rw [h2] <;> rfl

theorem srcTs_detect_filter_render (env : SrcTs.Env) :
    (SrcTs.detectServer env).2.2.2.filter isRender = [] := by
  rw [List.filter_eq_nil_iff]
  intro e he
  obtain ⟨j, hj⟩ := srcTs_detectServer_effects_probe env e he
  subst hj
  simp [isRender]

theorem srcTs_startTask_statusBar (env : SrcTs.Env) (s : State) :
    (SrcTs.startTask env s).1.statusBar = s.statusBar := by
  obtain ⟨th, hth⟩ := srcTs_startTask_state env s
  rw [hth]

theorem srcTs_navigate_statusBar (env : SrcTs.Env) (s : State) :
    (SrcTs.navigateCurrentPage env s).1.statusBar = s.statusBar := by
  obtain ⟨cu, hcu⟩ := srcTs_navigate_state env s
  rw [hcu]

theorem srcTs_startRest_renders (env : SrcTs.Env) (s : State) (b : StatusBarState)
    (hsb : s.statusBar = some b) :
    (SrcTs.startRest env s).2.filter isRender = [Effect.render StatusBarState.started] := by
  rw [srcTs_startRest_effects_eq]
  rw [List.filter_append, List.filter_append, List.filter_append]
  rw [srcTs_startTask_filter_render, srcTs_navigate_filter_render]
  have hcons : (Effect.resolveRootUrl :: (SrcTs.detectServer env).2.2.2).filter isRender
      = [] := by
    rw [List.filter_cons]
    simp only [isRender, Bool.false_eq_true, if_false]
    exact srcTs_detect_filter_render env
  rw [hcons]
  have hthsb : (SrcTs.navigateCurrentPage env
      { (SrcTs.startTask env s).1 with
        serverStarted := some (SrcTs.detectServer env).1 }).1.statusBar = some b := by
    rw [srcTs_navigate_statusBar]
    show (SrcTs.startTask env s).1.statusBar = some b
    rw [srcTs_startTask_statusBar]
    exact hsb
  rw [renderStatusBar_effects, if_neg (by rw [hthsb]; exact fun hx => Option.noConfusion hx)]
  rfl

/-- Claim C10: in `src/src/SimpleServer.ts` with `autoStart` and a
status-bar configuration, the constructor invokes `start()` before
assigning `statusBar`, and `start()`'s synchronous prefix — including
`statusBar?.spinning()` — runs to its first await before that
assignment; consequently the render trace of an auto-started
construction is exactly [stopped, started]: the spinning appearance is
never rendered, for every environment. -/
theorem autoStart_never_shows_spinning (env : SrcTs.Env) :
    (SrcTs.construct env true true).2.filter isRender =
      [Effect.render StatusBarState.stopped, Effect.render StatusBarState.started] := by
  unfold SrcTs.construct
  dsimp only []
  rw [srcTs_startPre_eq _ rfl]
  simp only [if_true]
  rw [List.filter_append, List.filter_append]
  rw [srcTs_startRest_renders env _ StatusBarState.stopped rfl]
  rfl
